import Mathlib

/-!
Verification of the ShopDB backend (src/main.py).

The program is a FastAPI application over four SQLAlchemy tables
(products, users, cart_items, bookmarks) plus a process-wide in-memory
session dictionary.  This file gives a shallow embedding of that state
and of every route handler, and proves the specification claims about
them.

Modelling conventions:
- Each table is a list of rows kept in insertion order; integer primary
  keys are generated by a per-table auto-increment counter starting at 1
  (MySQL AUTO_INCREMENT), so ids are unique and increasing in reachable
  states.
- The `sessions` python dict is an association list with insert-or-
  overwrite semantics.
- `price` is declared `Float` in the source; no arithmetic is ever
  performed on it, so it is carried here as an `Int`-valued field (any
  value carrier gives the same behaviour for these claims).
- A handler returns the (possibly unchanged) database state together
  with `Except Err Resp`: `HTTPException` becomes `.error`, a JSON body
  becomes `.ok`.  In the source every `raise` happens before any
  mutation, which the embedding reflects by returning the input state in
  every error branch.
- The SQLAlchemy `item.product` relationship is a lookup of the foreign
  key in the products table and yields `None` when the referenced row no
  longer exists (the schema has no cascading delete); hence the views
  return `List (Option Product)`.
- Database-engine-level foreign key enforcement is not modelled: the
  code itself performs no referential checks, and the specification
  states that orphaned CartItem/Bookmark rows are possible.
- Python truthiness in `if not user_id` is modelled literally: a session
  value of `0` is rejected exactly like a missing entry.
-/

namespace ShopDB

/-- Row of the `products` table (class `Product` in main.py). -/
structure Product where
  id : Nat
  name : String
  price : Int
  description : String
  stock : Int
  deriving Repr, DecidableEq

/-- Row of the `users` table (class `User` in main.py). -/
structure User where
  id : Nat
  username : String
  password : String
  deriving Repr, DecidableEq

/-- Row of the `cart_items` table (class `CartItem` in main.py). -/
structure CartItem where
  id : Nat
  user_id : Nat
  product_id : Nat
  deriving Repr, DecidableEq

/-- Row of the `bookmarks` table (class `Bookmark` in main.py). -/
structure Bookmark where
  id : Nat
  user_id : Nat
  product_id : Nat
  deriving Repr, DecidableEq

/-- Request body of POST /products/ (pydantic `ProductCreate`). -/
structure ProductCreate where
  name : String
  price : Int
  description : String
  stock : Int
  deriving Repr, DecidableEq

/-- Request body of PUT /products/{id} (pydantic `ProductUpdate`); every
field is optional and `none` models a field absent from the payload
(`dict(exclude_unset=True)` drops exactly the absent fields). -/
structure ProductUpdate where
  name : Option String := none
  price : Option Int := none
  description : Option String := none
  stock : Option Int := none
  deriving Repr, DecidableEq

/-- The whole mutable state: the four tables, the in-memory `sessions`
dict, and the auto-increment counter of each table. -/
structure DB where
  products : List Product
  users : List User
  cart_items : List CartItem
  bookmarks : List Bookmark
  sessions : List (String × Nat)
  next_product_id : Nat
  next_user_id : Nat
  next_cart_id : Nat
  next_bookmark_id : Nat
  deriving Repr, DecidableEq

/-- The state right after `Base.metadata.create_all`: empty tables, empty
session dict, auto-increment counters at 1. -/
def initDB : DB :=
  { products := [], users := [], cart_items := [], bookmarks := [],
    sessions := [], next_product_id := 1, next_user_id := 1,
    next_cart_id := 1, next_bookmark_id := 1 }

/-- `sessions.get(k)` on the python dict. -/
def dictGet (d : List (String × Nat)) (k : String) : Option Nat :=
  (d.find? (fun kv => kv.1 == k)).map (fun kv => kv.2)

/-- `sessions[k] = v` on the python dict: overwrite if present, else
append. -/
def dictSet (d : List (String × Nat)) (k : String) (v : Nat) :
    List (String × Nat) :=
  if d.any (fun kv => kv.1 == k) then
    d.map (fun kv => if kv.1 == k then (k, v) else kv)
  else
    d ++ [(k, v)]

/-- `sessions.pop(k, None)` on the python dict. -/
def dictPop (d : List (String × Nat)) (k : String) : List (String × Nat) :=
  d.filter (fun kv => kv.1 != k)

/-- The `HTTPException`s raised in main.py, one constructor per distinct
raise site. -/
inductive Err where
  | usernameTaken
  | invalidCredentials
  | productNotFound
  | notAuthenticated
  deriving Repr, DecidableEq

/-- The `status_code` of each exception. -/
def Err.status : Err → Nat
  | .usernameTaken => 400
  | .invalidCredentials => 400
  | .productNotFound => 404
  | .notAuthenticated => 403

/-- Successful response bodies of the handlers. -/
inductive Resp where
  | msg (s : String)
  | okTrue
  | product (p : Product)
  | products (ps : List Product)
  | productViews (ps : List (Option Product))
  deriving Repr, DecidableEq

/-- `db.query(Product).get(product_id)`: primary key lookup. -/
def getProduct (db : DB) (product_id : Nat) : Option Product :=
  db.products.find? (fun p => p.id == product_id)

/-- POST /register (`register` in main.py). -/
def register (db : DB) (username password : String) :
    DB × Except Err Resp :=
  if (db.users.find? (fun u => u.username == username)).isSome then
    (db, .error .usernameTaken)
  else
    let db_user : User :=
      { id := db.next_user_id, username := username, password := password }
    ({ db with users := db.users ++ [db_user],
               next_user_id := db.next_user_id + 1 },
     .ok (.msg "User created successfully"))

/-- POST /login (`login` in main.py). -/
def login (db : DB) (username password : String) :
    DB × Except Err Resp :=
  match db.users.find?
      (fun u => u.username == username && u.password == password) with
  | none => (db, .error .invalidCredentials)
  | some db_user =>
      ({ db with sessions := dictSet db.sessions username db_user.id },
       .ok (.msg "Login successful"))

/-- POST /logout (`logout` in main.py). -/
def logout (db : DB) (username : String) : DB × Except Err Resp :=
  ({ db with sessions := dictPop db.sessions username },
   .ok (.msg "Logged out"))

/-- POST /products/ (`create_product` in main.py). -/
def create_product (db : DB) (product : ProductCreate) :
    DB × Except Err Resp :=
  let db_product : Product :=
    { id := db.next_product_id, name := product.name,
      price := product.price, description := product.description,
      stock := product.stock }
  ({ db with products := db.products ++ [db_product],
             next_product_id := db.next_product_id + 1 },
   .ok (.product db_product))

/-- GET /products/ (`read_products` in main.py). -/
def read_products (db : DB) : DB × Except Err Resp :=
  (db, .ok (.products db.products))

/-- DELETE /products/{product_id} (`delete_product` in main.py);
`db.delete(product)` removes the single row found by primary key, i.e.
the first row whose id matches. -/
def delete_product (db : DB) (product_id : Nat) : DB × Except Err Resp :=
  match getProduct db product_id with
  | none => (db, .error .productNotFound)
  | some _ =>
      ({ db with products := db.products.eraseP (fun p => p.id == product_id) },
       .ok .okTrue)

/-- `setattr(product, key, value)` for each key present in
`product_data.dict(exclude_unset=True)`. -/
def applyUpdate (u : ProductUpdate) (p : Product) : Product :=
  { p with
    name := u.name.getD p.name,
    price := u.price.getD p.price,
    description := u.description.getD p.description,
    stock := u.stock.getD p.stock }

/-- PUT /products/{product_id} (`update_product` in main.py); the row is
mutated in place, i.e. replaced at its position in the table. -/
def update_product (db : DB) (product_id : Nat)
    (product_data : ProductUpdate) : DB × Except Err Resp :=
  match getProduct db product_id with
  | none => (db, .error .productNotFound)
  | some product =>
      let newRows :=
        db.products.map
          (fun p => if p.id == product_id then applyUpdate product_data p else p)
      ({ db with products := newRows },
       .ok (.product (applyUpdate product_data product)))

/-- POST /cart/{username}/{product_id} (`add_to_cart` in main.py).  The
`if not user_id` check fails both on a missing session entry and on a
session value of 0 (python truthiness). -/
def add_to_cart (db : DB) (username : String) (product_id : Nat) :
    DB × Except Err Resp :=
  match dictGet db.sessions username with
  | none => (db, .error .notAuthenticated)
  | some user_id =>
      if user_id == 0 then (db, .error .notAuthenticated)
      else
        let item : CartItem :=
          { id := db.next_cart_id, user_id := user_id, product_id := product_id }
        ({ db with cart_items := db.cart_items ++ [item],
                   next_cart_id := db.next_cart_id + 1 },
         .ok (.msg "Added to cart"))

/-- GET /cart/{username} (`view_cart` in main.py): the user's cart rows
in table order, each mapped through the `item.product` relationship. -/
def view_cart (db : DB) (username : String) : DB × Except Err Resp :=
  match dictGet db.sessions username with
  | none => (db, .error .notAuthenticated)
  | some user_id =>
      if user_id == 0 then (db, .error .notAuthenticated)
      else
        let items := db.cart_items.filter (fun c => c.user_id == user_id)
        (db, .ok (.productViews (items.map (fun c => getProduct db c.product_id))))

/-- DELETE /cart/{username}/{product_id} (`remove_from_cart` in main.py):
deletes the first matching row if any, and answers with the same message
either way. -/
def remove_from_cart (db : DB) (username : String) (product_id : Nat) :
    DB × Except Err Resp :=
  match dictGet db.sessions username with
  | none => (db, .error .notAuthenticated)
  | some user_id =>
      if user_id == 0 then (db, .error .notAuthenticated)
      else
        match db.cart_items.find?
            (fun c => c.user_id == user_id && c.product_id == product_id) with
        | some _ =>
            let newRows :=
              db.cart_items.eraseP
                (fun c => c.user_id == user_id && c.product_id == product_id)
            ({ db with cart_items := newRows }, .ok (.msg "Removed from cart"))
        | none => (db, .ok (.msg "Removed from cart"))

/-- POST /bookmarks/{username}/{product_id} (`add_bookmark` in main.py). -/
def add_bookmark (db : DB) (username : String) (product_id : Nat) :
    DB × Except Err Resp :=
  match dictGet db.sessions username with
  | none => (db, .error .notAuthenticated)
  | some user_id =>
      if user_id == 0 then (db, .error .notAuthenticated)
      else
        let bookmark : Bookmark :=
          { id := db.next_bookmark_id, user_id := user_id, product_id := product_id }
        ({ db with bookmarks := db.bookmarks ++ [bookmark],
                   next_bookmark_id := db.next_bookmark_id + 1 },
         .ok (.msg "Added to bookmarks"))

/-- GET /bookmarks/{username} (`view_bookmarks` in main.py). -/
def view_bookmarks (db : DB) (username : String) : DB × Except Err Resp :=
  match dictGet db.sessions username with
  | none => (db, .error .notAuthenticated)
  | some user_id =>
      if user_id == 0 then (db, .error .notAuthenticated)
      else
        let bs := db.bookmarks.filter (fun b => b.user_id == user_id)
        (db, .ok (.productViews (bs.map (fun b => getProduct db b.product_id))))

/-- DELETE /bookmarks/{username}/{product_id} (`remove_bookmark` in
main.py). -/
def remove_bookmark (db : DB) (username : String) (product_id : Nat) :
    DB × Except Err Resp :=
  match dictGet db.sessions username with
  | none => (db, .error .notAuthenticated)
  | some user_id =>
      if user_id == 0 then (db, .error .notAuthenticated)
      else
        match db.bookmarks.find?
            (fun b => b.user_id == user_id && b.product_id == product_id) with
        | some _ =>
            let newRows :=
              db.bookmarks.eraseP
                (fun b => b.user_id == user_id && b.product_id == product_id)
            ({ db with bookmarks := newRows }, .ok (.msg "Removed from bookmarks"))
        | none => (db, .ok (.msg "Removed from bookmarks"))

/-- One HTTP request to any of the thirteen routes. -/
inductive Request where
  | register (username password : String)
  | login (username password : String)
  | logout (username : String)
  | createProduct (p : ProductCreate)
  | readProducts
  | deleteProduct (product_id : Nat)
  | updateProduct (product_id : Nat) (pd : ProductUpdate)
  | addToCart (username : String) (product_id : Nat)
  | viewCart (username : String)
  | removeFromCart (username : String) (product_id : Nat)
  | addBookmark (username : String) (product_id : Nat)
  | viewBookmarks (username : String)
  | removeBookmark (username : String) (product_id : Nat)
  deriving Repr, DecidableEq

/-- Dispatch: the FastAPI routing table. -/
def handle : DB → Request → DB × Except Err Resp
  | db, .register u p => register db u p
  | db, .login u p => login db u p
  | db, .logout u => logout db u
  | db, .createProduct p => create_product db p
  | db, .readProducts => read_products db
  | db, .deleteProduct pid => delete_product db pid
  | db, .updateProduct pid pd => update_product db pid pd
  | db, .addToCart u pid => add_to_cart db u pid
  | db, .viewCart u => view_cart db u
  | db, .removeFromCart u pid => remove_from_cart db u pid
  | db, .addBookmark u pid => add_bookmark db u pid
  | db, .viewBookmarks u => view_bookmarks db u
  | db, .removeBookmark u pid => remove_bookmark db u pid

/-- Running a sequence of requests, keeping only the state. -/
def run (db : DB) : List Request → DB
  | [] => db
  | r :: rs => run (handle db r).1 rs

/-- The product ids of user `uid`'s cart rows, in table order. -/
def cartPids (db : DB) (uid : Nat) : List Nat :=
  (db.cart_items.filter (fun c => c.user_id == uid)).map
    (fun c => c.product_id)

/-- The product ids of user `uid`'s bookmark rows, in table order. -/
def bookmarkPids (db : DB) (uid : Nat) : List Nat :=
  (db.bookmarks.filter (fun b => b.user_id == uid)).map
    (fun b => b.product_id)

/-- Modelled from the spec: the effect of one request on the list of
product ids user `uid` "has added to the cart and not removed, in
insertion order": a successful cart add by that user appends the id, a
successful cart removal erases the first occurrence of the id, every
other request leaves the list alone. -/
def cartSpecStep (uid : Nat) (db : DB) (r : Request) (l : List Nat) :
    List Nat :=
  match r with
  | .addToCart u pid =>
      if dictGet db.sessions u = some uid ∧ uid ≠ 0 then l ++ [pid] else l
  | .removeFromCart u pid =>
      if dictGet db.sessions u = some uid ∧ uid ≠ 0 then l.erase pid else l
  | _ => l

/-- Modelled from the spec: folding `cartSpecStep` along a request
trace, carrying the program state for the session lookups. -/
def cartSpecRun (uid : Nat) : DB → List Request → List Nat → List Nat
  | _, [], l => l
  | db, r :: rs, l => cartSpecRun uid (handle db r).1 rs (cartSpecStep uid db r l)

/-- Modelled from the spec: the bookmark counterpart of
`cartSpecStep`. -/
def bookmarkSpecStep (uid : Nat) (db : DB) (r : Request) (l : List Nat) :
    List Nat :=
  match r with
  | .addBookmark u pid =>
      if dictGet db.sessions u = some uid ∧ uid ≠ 0 then l ++ [pid] else l
  | .removeBookmark u pid =>
      if dictGet db.sessions u = some uid ∧ uid ≠ 0 then l.erase pid else l
  | _ => l

/-- Modelled from the spec: the bookmark counterpart of
`cartSpecRun`. -/
def bookmarkSpecRun (uid : Nat) :
    DB → List Request → List Nat → List Nat
  | _, [], l => l
  | db, r :: rs, l =>
      bookmarkSpecRun uid (handle db r).1 rs (bookmarkSpecStep uid db r l)

/-- A state with one registered user "alice" (id 1) who is not logged
in. -/
def dbAlice : DB :=
  { initDB with users := [⟨1, "alice", "pw"⟩], next_user_id := 2 }

/-- A state with user "alice" (id 1) registered and logged in. -/
def dbAliceIn : DB :=
  { initDB with users := [⟨1, "alice", "pw"⟩], next_user_id := 2,
                sessions := [("alice", 1)] }

/-- If `find?` hits, the list splits as a match-free prefix, the found
element, and a suffix, and `eraseP` drops exactly the found element. -/
theorem find?_eraseP_split {α : Type} (f : α → Bool) (l : List α) (a : α)
    (h : l.find? f = some a) :
    ∃ l1 l2, l = l1 ++ a :: l2 ∧ (∀ x ∈ l1, f x = false) ∧
      l.eraseP f = l1 ++ l2 := by
  induction l with
  | nil => simp [List.find?] at h
  | cons b t ih =>
    by_cases hb : f b
    · rw [List.find?_cons_of_pos _ hb] at h
      obtain rfl : b = a := by injection h
      exact ⟨[], t, by simp, by simp, by simp [List.eraseP_cons, hb]⟩
    · rw [List.find?_cons_of_neg _ hb] at h
      obtain ⟨l1, l2, h1, h2, h3⟩ := ih h
      refine ⟨b :: l1, l2, by simp [h1], ?_, ?_⟩
      · intro x hx
        rcases List.mem_cons.mp hx with hx | hx
        · subst hx; exact Bool.eq_false_iff.mpr hb
        · exact h2 x hx
      · simp [List.eraseP_cons, hb, h3]

/-- Erasing the first row matching `q x && f x == b` commutes with
taking the `f`-image of the `q`-filtered sublist: it erases the first
occurrence of `b` there. -/
theorem filter_map_eraseP {α β : Type} [BEq β] [LawfulBEq β]
    (q : α → Bool) (f : α → β) (b : β) (l : List α) :
    ((l.eraseP (fun x => q x && (f x == b))).filter q).map f
      = ((l.filter q).map f).erase b := by
  induction l with
  | nil => simp
  | cons a t ih =>
    by_cases hq : q a
    · by_cases hf : (f a == b) = true
      · have hp : (fun x => q x && (f x == b)) a = true := by simp [hq, hf]
        simp [List.eraseP_cons, hp, hq, List.filter_cons, List.erase_cons, hf]
      · have hp : (fun x => q x && (f x == b)) a = false := by simp [hf]
        simp [List.eraseP_cons, hp, hq, List.filter_cons, List.erase_cons,
              hf, ih]
    · have hp : (fun x => q x && (f x == b)) a = false := by simp [hq]
      simp [List.eraseP_cons, hp, hq, List.filter_cons, ih]

/-- Erasing a row that the filter discards anyway does not change the
filtered sublist. -/
theorem filter_eraseP_of_disjoint {α : Type} (p q : α → Bool) (l : List α)
    (h : ∀ x, p x = true → q x = false) :
    (l.eraseP p).filter q = l.filter q := by
  induction l with
  | nil => simp
  | cons a t ih =>
    by_cases hp : p a
    · simp [List.eraseP_cons, hp, List.filter_cons, h a hp]
    · simp [List.eraseP_cons, hp, List.filter_cons, ih]

/-- If no row matches `q x && f x == b`, then `b` does not occur in the
`f`-image of the `q`-filtered sublist. -/
theorem not_mem_filter_map_of_find?_none {α β : Type} [BEq β] [LawfulBEq β]
    (q : α → Bool) (f : α → β) (b : β) (l : List α)
    (h : l.find? (fun x => q x && (f x == b)) = none) :
    b ∉ (l.filter q).map f := by
  intro hmem
  obtain ⟨x, hx, hfx⟩ := List.mem_map.mp hmem
  obtain ⟨hxl, hqx⟩ := List.mem_filter.mp hx
  have := List.find?_eq_none.mp h x hxl
  simp [hqx, hfx] at this

/-- Claim C2: for every database state and every valid product payload,
POST /products/ answers with a product row carrying exactly the payload
fields, and GET /products/ on the resulting state lists that row. -/
theorem create_then_list_contains (db : DB) (payload : ProductCreate) :
    ∃ prod ps,
      (create_product db payload).2 = .ok (.product prod) ∧
      prod.name = payload.name ∧ prod.price = payload.price ∧
      prod.description = payload.description ∧ prod.stock = payload.stock ∧
      (read_products (create_product db payload).1).2 = .ok (.products ps) ∧
      prod ∈ ps := by
  refine ⟨_, _, rfl, rfl, rfl, rfl, rfl, rfl, ?_⟩
  simp [create_product, read_products]

/-- Claim C3: if some user row already holds the requested username,
POST /register fails with the 400 "username taken" error and the whole
state — in particular the users table — is returned unchanged. -/
theorem register_duplicate_username (db : DB) (username password : String)
    (h : ∃ u ∈ db.users, u.username = username) :
    (register db username password).2 = .error .usernameTaken ∧
    Err.usernameTaken.status = 400 ∧
    (register db username password).1 = db := by
  obtain ⟨u, hu, huname⟩ := h
  have hfind : (db.users.find? (fun v => v.username == username)).isSome := by
    rw [List.find?_isSome]
    exact ⟨u, hu, by simp [huname]⟩
  simp [register, hfind, Err.status]

/-- Claim C4: DELETE /products/{id} on an id with no matching product row
fails with the 404 "product not found" error and returns the state — in
particular the products table — unchanged. -/
theorem delete_missing_product (db : DB) (product_id : Nat)
    (h : getProduct db product_id = none) :
    (delete_product db product_id).2 = .error .productNotFound ∧
    Err.productNotFound.status = 404 ∧
    (delete_product db product_id).1 = db := by
  simp [delete_product, h, Err.status]

/-- Claim C5: POST /cart/{username}/{product_id} for a username with no
entry in the in-memory session dict fails with the 403 "not
authenticated" error and returns the state — in particular the
cart_items table — unchanged. -/
theorem add_to_cart_unauthenticated (db : DB) (username : String)
    (product_id : Nat) (h : dictGet db.sessions username = none) :
    (add_to_cart db username product_id).2 = .error .notAuthenticated ∧
    Err.notAuthenticated.status = 403 ∧
    (add_to_cart db username product_id).1 = db := by
  simp [add_to_cart, h, Err.status]

/-- Witness for `register_duplicate_username` at a concrete state. -/
theorem register_duplicate_username_witness :
    (∃ u ∈ dbAlice.users, u.username = "alice") ∧
    (register dbAlice "alice" "pw2").2 = .error .usernameTaken ∧
    (register dbAlice "alice" "pw2").1 = dbAlice :=
  ⟨⟨⟨1, "alice", "pw"⟩, by simp [dbAlice, initDB], rfl⟩,
   (register_duplicate_username dbAlice "alice" "pw2"
      ⟨⟨1, "alice", "pw"⟩, by simp [dbAlice, initDB], rfl⟩).1,
   (register_duplicate_username dbAlice "alice" "pw2"
      ⟨⟨1, "alice", "pw"⟩, by simp [dbAlice, initDB], rfl⟩).2.2⟩

/-- Witness for `delete_missing_product` at the empty state. -/
theorem delete_missing_product_witness :
    getProduct initDB 7 = none ∧
    (delete_product initDB 7).2 = .error .productNotFound ∧
    (delete_product initDB 7).1 = initDB :=
  ⟨rfl, (delete_missing_product initDB 7 rfl).1,
   (delete_missing_product initDB 7 rfl).2.2⟩

/-- Witness for `add_to_cart_unauthenticated`: "alice" is registered but
has no session entry. -/
theorem add_to_cart_unauthenticated_witness :
    dictGet dbAlice.sessions "alice" = none ∧
    (add_to_cart dbAlice "alice" 1).2 = .error .notAuthenticated ∧
    (add_to_cart dbAlice "alice" 1).1 = dbAlice :=
  ⟨rfl, (add_to_cart_unauthenticated dbAlice "alice" 1 rfl).1,
   (add_to_cart_unauthenticated dbAlice "alice" 1 rfl).2.2⟩

/-- Claim C7: deleting an existing product answers ok and removes exactly
that product row: the cart_items, bookmarks, users tables and the session
dict are untouched (so cart/bookmark rows referencing the product become
orphans), and the products table loses the one matching row. -/
theorem delete_product_leaves_cart_and_bookmarks (db : DB)
    (product_id : Nat) (p : Product)
    (h : getProduct db product_id = some p) :
    (delete_product db product_id).2 = .ok .okTrue ∧
    (delete_product db product_id).1.cart_items = db.cart_items ∧
    (delete_product db product_id).1.bookmarks = db.bookmarks ∧
    (delete_product db product_id).1.users = db.users ∧
    (delete_product db product_id).1.sessions = db.sessions ∧
    ∃ l1 l2, db.products = l1 ++ p :: l2 ∧
      (∀ q ∈ l1, (q.id == product_id) = false) ∧
      (delete_product db product_id).1.products = l1 ++ l2 := by
  obtain ⟨l1, l2, h1, h2, h3⟩ :=
    find?_eraseP_split (fun q : Product => q.id == product_id) db.products p h
  refine ⟨?_, ?_, ?_, ?_, ?_, l1, l2, h1, h2, ?_⟩ <;>
    simp [delete_product, h, h3]

/-- Witness for `delete_product_leaves_cart_and_bookmarks` at a state
with one product and an orphan-to-be cart row. -/
theorem delete_product_leaves_cart_and_bookmarks_witness :
    getProduct { initDB with products := [⟨1, "x", 5, "d", 3⟩],
                             cart_items := [⟨1, 1, 1⟩],
                             next_product_id := 2, next_cart_id := 2 } 1
      = some ⟨1, "x", 5, "d", 3⟩ ∧
    (delete_product { initDB with products := [⟨1, "x", 5, "d", 3⟩],
                                  cart_items := [⟨1, 1, 1⟩],
                                  next_product_id := 2, next_cart_id := 2 } 1).1.cart_items
      = [⟨1, 1, 1⟩] :=
  ⟨rfl,
   (delete_product_leaves_cart_and_bookmarks
      { initDB with products := [⟨1, "x", 5, "d", 3⟩],
                    cart_items := [⟨1, 1, 1⟩],
                    next_product_id := 2, next_cart_id := 2 } 1
      ⟨1, "x", 5, "d", 3⟩ rfl).2.1⟩

/-- A state with "alice" (id 1) logged in who has bookmarked product 9
but has nothing in her cart. -/
def dbAliceInBm : DB :=
  { dbAliceIn with bookmarks := [⟨1, 1, 9⟩], next_bookmark_id := 2 }

/-- Claim C9: for an authenticated user, deleting a cart item with no
matching cart row answers with the normal success message and leaves
the state completely unchanged, and likewise deleting a bookmark with
no matching bookmark row; each removal is conditioned only on its own
table. -/
theorem remove_missing_item_is_noop (db : DB) (username : String)
    (product_id uid : Nat)
    (h : dictGet db.sessions username = some uid) (h0 : uid ≠ 0) :
    (db.cart_items.find?
        (fun c => c.user_id == uid && c.product_id == product_id) = none →
      remove_from_cart db username product_id
        = (db, .ok (.msg "Removed from cart"))) ∧
    (db.bookmarks.find?
        (fun b => b.user_id == uid && b.product_id == product_id) = none →
      remove_bookmark db username product_id
        = (db, .ok (.msg "Removed from bookmarks"))) := by
  have h0' : (uid == 0) = false := by simpa using h0
  constructor
  · intro hc; simp [remove_from_cart, h, h0', hc]
  · intro hb; simp [remove_bookmark, h, h0', hb]

/-- Witness for `remove_missing_item_is_noop`: "alice" is logged in,
has bookmarked product 9 but never carted it, and DELETE /cart/alice/9
is still a successful no-op; DELETE /bookmarks/alice/7, where no
bookmark matches, is one as well. -/
theorem remove_missing_item_is_noop_witness :
    dictGet dbAliceInBm.sessions "alice" = some 1 ∧
    dbAliceInBm.cart_items.find?
        (fun c => c.user_id == 1 && c.product_id == 9) = none ∧
    dbAliceInBm.bookmarks = [⟨1, 1, 9⟩] ∧
    remove_from_cart dbAliceInBm "alice" 9
      = (dbAliceInBm, .ok (.msg "Removed from cart")) ∧
    dbAliceInBm.bookmarks.find?
        (fun b => b.user_id == 1 && b.product_id == 7) = none ∧
    remove_bookmark dbAliceInBm "alice" 7
      = (dbAliceInBm, .ok (.msg "Removed from bookmarks")) :=
  ⟨rfl, rfl, rfl,
   (remove_missing_item_is_noop dbAliceInBm "alice" 9 1 rfl
      (by decide)).1 rfl,
   rfl,
   (remove_missing_item_is_noop dbAliceInBm "alice" 7 1 rfl
      (by decide)).2 rfl⟩

/-- Claim C10: PUT /products/{id} on an existing product returns a row
with the same id whose fields track the payload: a field present in the
payload takes the payload value, a field absent keeps the previous
value; rows with a different id stay in the table, and the all-absent
payload leaves the state unchanged. -/
theorem update_product_partial_fields (db : DB) (product_id : Nat)
    (pd : ProductUpdate) (p : Product)
    (h : getProduct db product_id = some p) :
    ∃ p', (update_product db product_id pd).2 = .ok (.product p') ∧
      p'.id = p.id ∧
      (∀ v, pd.name = some v → p'.name = v) ∧
      (pd.name = none → p'.name = p.name) ∧
      (∀ v, pd.price = some v → p'.price = v) ∧
      (pd.price = none → p'.price = p.price) ∧
      (∀ v, pd.description = some v → p'.description = v) ∧
      (pd.description = none → p'.description = p.description) ∧
      (∀ v, pd.stock = some v → p'.stock = v) ∧
      (pd.stock = none → p'.stock = p.stock) ∧
      (∀ q ∈ db.products, (q.id == product_id) = false →
        q ∈ (update_product db product_id pd).1.products) ∧
      (pd = {} → update_product db product_id pd = (db, .ok (.product p))) := by
  refine ⟨applyUpdate pd p, ?_, rfl, ?_, ?_, ?_, ?_, ?_, ?_, ?_, ?_, ?_, ?_⟩
  · simp [update_product, h]
  · intro v hv; simp [applyUpdate, hv]
  · intro hv; simp [applyUpdate, hv]
  · intro v hv; simp [applyUpdate, hv]
  · intro hv; simp [applyUpdate, hv]
  · intro v hv; simp [applyUpdate, hv]
  · intro hv; simp [applyUpdate, hv]
  · intro v hv; simp [applyUpdate, hv]
  · intro hv; simp [applyUpdate, hv]
  · intro q hq hne
    simp only [update_product, h]
    exact List.mem_map.mpr ⟨q, hq, by simp [hne]⟩
  · intro hpd
    subst hpd
    have hid : ∀ q : Product, applyUpdate {} q = q := by
      intro q; simp [applyUpdate]
    simp [update_product, h, hid]

/-- Witness for `update_product_partial_fields`: update only the price
of the single product. -/
theorem update_product_partial_fields_witness :
    getProduct { initDB with products := [⟨1, "x", 5, "d", 3⟩],
                             next_product_id := 2 } 1
      = some ⟨1, "x", 5, "d", 3⟩ ∧
    ∃ p', (update_product { initDB with products := [⟨1, "x", 5, "d", 3⟩],
                                        next_product_id := 2 } 1
             { price := some 9 }).2 = .ok (.product p') ∧
      p'.id = 1 ∧ p'.price = 9 ∧ p'.name = "x" :=
  ⟨rfl, by
    obtain ⟨p', h1, h2, h3, h4, h5, h6, h7, h8, h9, h10, h11, h12⟩ :=
      update_product_partial_fields
        { initDB with products := [⟨1, "x", 5, "d", 3⟩],
                      next_product_id := 2 } 1
        { price := some 9 } ⟨1, "x", 5, "d", 3⟩ rfl
    exact ⟨p', h1, h2, h5 9 rfl, h4 rfl⟩⟩

/-- Claim C8: for a logged-in user, adding the same (user, product) pair
twice to the cart appends two rows with distinct primary keys, and the
cart view afterwards shows that product's entry twice at the end;
likewise for bookmarks. -/
theorem add_same_pair_twice (db : DB) (username : String)
    (product_id uid : Nat)
    (h : dictGet db.sessions username = some uid) (h0 : uid ≠ 0) :
    ∃ c1 c2 : CartItem, ∃ b1 b2 : Bookmark,
      c1.id ≠ c2.id ∧ c1.user_id = uid ∧ c1.product_id = product_id ∧
      c2.user_id = uid ∧ c2.product_id = product_id ∧
      (add_to_cart (add_to_cart db username product_id).1
          username product_id).1.cart_items
        = db.cart_items ++ [c1, c2] ∧
      (view_cart (add_to_cart (add_to_cart db username product_id).1
          username product_id).1 username).2
        = .ok (.productViews
            ((db.cart_items.filter (fun c => c.user_id == uid)).map
                (fun c => getProduct db c.product_id)
              ++ [getProduct db product_id, getProduct db product_id])) ∧
      b1.id ≠ b2.id ∧ b1.user_id = uid ∧ b1.product_id = product_id ∧
      b2.user_id = uid ∧ b2.product_id = product_id ∧
      (add_bookmark (add_bookmark db username product_id).1
          username product_id).1.bookmarks
        = db.bookmarks ++ [b1, b2] ∧
      (view_bookmarks (add_bookmark (add_bookmark db username product_id).1
          username product_id).1 username).2
        = .ok (.productViews
            ((db.bookmarks.filter (fun b => b.user_id == uid)).map
                (fun b => getProduct db b.product_id)
              ++ [getProduct db product_id, getProduct db product_id])) := by
  have h0' : (uid == 0) = false := by simpa using h0
  refine ⟨⟨db.next_cart_id, uid, product_id⟩,
          ⟨db.next_cart_id + 1, uid, product_id⟩,
          ⟨db.next_bookmark_id, uid, product_id⟩,
          ⟨db.next_bookmark_id + 1, uid, product_id⟩,
          by simp, rfl, rfl, rfl, rfl, ?_, ?_,
          by simp, rfl, rfl, rfl, rfl, ?_, ?_⟩ <;>
    simp [add_to_cart, add_bookmark, view_cart, view_bookmarks,
          h, h0', getProduct]

/-- Witness for `add_same_pair_twice`: "alice" logged in, empty cart. -/
theorem add_same_pair_twice_witness :
    dictGet dbAliceIn.sessions "alice" = some 1 ∧
    ∃ c1 c2 : CartItem, c1.id ≠ c2.id ∧
      c1.user_id = 1 ∧ c1.product_id = 4 ∧
      c2.user_id = 1 ∧ c2.product_id = 4 ∧
      (add_to_cart (add_to_cart dbAliceIn "alice" 4).1
          "alice" 4).1.cart_items = dbAliceIn.cart_items ++ [c1, c2] := by
  refine ⟨rfl, ?_⟩
  obtain ⟨c1, c2, b1, b2, hne, hu1, hp1, hu2, hp2, hrows, _⟩ :=
    add_same_pair_twice dbAliceIn "alice" 4 1 rfl (by decide)
  exact ⟨c1, c2, hne, hu1, hp1, hu2, hp2, hrows⟩

/-- The username whose session a request consults, if any: the six cart
and bookmark routes take `{username}` from the path and check the
session dict; no other route does. -/
def sessionUser : Request → Option String
  | .addToCart u _ => some u
  | .viewCart u => some u
  | .removeFromCart u _ => some u
  | .addBookmark u _ => some u
  | .viewBookmarks u => some u
  | .removeBookmark u _ => some u
  | _ => none

/-- Counterexample to claim C6 as stated: POST /login with wrong
credentials fails with status 400 "Invalid credentials", which is none
of the three error outcomes the claim allows (404 not-found, 403
unauthenticated, 400 duplicate-username). -/
theorem login_error_outside_claimed_taxonomy :
    (handle initDB (.login "a" "b")).2 = .error .invalidCredentials ∧
    Err.invalidCredentials.status = 400 ∧
    Err.invalidCredentials ≠ .usernameTaken ∧
    Err.invalidCredentials ≠ .productNotFound ∧
    Err.invalidCredentials ≠ .notAuthenticated :=
  ⟨rfl, rfl, by decide, by decide, by decide⟩

/-- Claim C6 amended: every error outcome of every handler is one of
exactly four: 404 when the referenced product is not found (delete and
update), 403 when the requesting username has no usable session entry
(the six cart/bookmark routes), 400 when the registered username is a
duplicate, and 400 when login credentials match no user. -/
theorem handler_errors_classified (db : DB) (r : Request) (e : Err)
    (h : (handle db r).2 = .error e) :
    (e = .productNotFound ∧ e.status = 404 ∧
      ∃ pid, (r = .deleteProduct pid ∨ ∃ pd, r = .updateProduct pid pd) ∧
        getProduct db pid = none) ∨
    (e = .notAuthenticated ∧ e.status = 403 ∧
      ∃ u, sessionUser r = some u ∧
        (dictGet db.sessions u = none ∨ dictGet db.sessions u = some 0)) ∨
    (e = .usernameTaken ∧ e.status = 400 ∧
      ∃ u p, r = .register u p ∧
        (db.users.find? (fun v => v.username == u)).isSome) ∨
    (e = .invalidCredentials ∧ e.status = 400 ∧
      ∃ u p, r = .login u p ∧
        db.users.find?
          (fun v => v.username == u && v.password == p) = none) := by
  cases r with
  | register u p =>
    by_cases hf : (db.users.find? (fun v => v.username == u)).isSome
    · simp [handle, register, hf] at h
      subst h
      exact Or.inr (Or.inr (Or.inl ⟨rfl, rfl, u, p, rfl, hf⟩))
    · simp [handle, register, hf] at h
  | login u p =>
    rcases hf : db.users.find? (fun v => v.username == u && v.password == p)
        with _ | usr
    · simp [handle, login, hf] at h
      subst h
      exact Or.inr (Or.inr (Or.inr ⟨rfl, rfl, u, p, rfl, hf⟩))
    · simp [handle, login, hf] at h
  | logout u => simp [handle, logout] at h
  | createProduct p => simp [handle, create_product] at h
  | readProducts => simp [handle, read_products] at h
  | deleteProduct pid =>
    rcases hg : getProduct db pid with _ | pp
    · simp [handle, delete_product, hg] at h
      subst h
      exact Or.inl ⟨rfl, rfl, pid, Or.inl rfl, hg⟩
    · simp [handle, delete_product, hg] at h
  | updateProduct pid pd =>
    rcases hg : getProduct db pid with _ | pp
    · simp [handle, update_product, hg] at h
      subst h
      exact Or.inl ⟨rfl, rfl, pid, Or.inr ⟨pd, rfl⟩, hg⟩
    · simp [handle, update_product, hg] at h
  | addToCart u pid =>
    rcases hs : dictGet db.sessions u with _ | uid
    · simp [handle, add_to_cart, hs] at h
      subst h
      exact Or.inr (Or.inl ⟨rfl, rfl, u, rfl, Or.inl hs⟩)
    · by_cases hz : uid = 0
      · subst hz
        simp [handle, add_to_cart, hs] at h
        subst h
        exact Or.inr (Or.inl ⟨rfl, rfl, u, rfl, Or.inr hs⟩)
      · have hz' : (uid == 0) = false := by simpa using hz
        simp [handle, add_to_cart, hs, hz'] at h
  | viewCart u =>
    rcases hs : dictGet db.sessions u with _ | uid
    · simp [handle, view_cart, hs] at h
      subst h
      exact Or.inr (Or.inl ⟨rfl, rfl, u, rfl, Or.inl hs⟩)
    · by_cases hz : uid = 0
      · subst hz
        simp [handle, view_cart, hs] at h
        subst h
        exact Or.inr (Or.inl ⟨rfl, rfl, u, rfl, Or.inr hs⟩)
      · have hz' : (uid == 0) = false := by simpa using hz
        simp [handle, view_cart, hs, hz'] at h
  | removeFromCart u pid =>
    rcases hs : dictGet db.sessions u with _ | uid
    · simp [handle, remove_from_cart, hs] at h
      subst h
      exact Or.inr (Or.inl ⟨rfl, rfl, u, rfl, Or.inl hs⟩)
    · by_cases hz : uid = 0
      · subst hz
        simp [handle, remove_from_cart, hs] at h
        subst h
        exact Or.inr (Or.inl ⟨rfl, rfl, u, rfl, Or.inr hs⟩)
      · have hz' : (uid == 0) = false := by simpa using hz
        rcases hf : db.cart_items.find?
            (fun c => c.user_id == uid && c.product_id == pid) with _ | it <;>
          simp [handle, remove_from_cart, hs, hz', hf] at h
  | addBookmark u pid =>
    rcases hs : dictGet db.sessions u with _ | uid
    · simp [handle, add_bookmark, hs] at h
      subst h
      exact Or.inr (Or.inl ⟨rfl, rfl, u, rfl, Or.inl hs⟩)
    · by_cases hz : uid = 0
      · subst hz
        simp [handle, add_bookmark, hs] at h
        subst h
        exact Or.inr (Or.inl ⟨rfl, rfl, u, rfl, Or.inr hs⟩)
      · have hz' : (uid == 0) = false := by simpa using hz
        simp [handle, add_bookmark, hs, hz'] at h
  | viewBookmarks u =>
    rcases hs : dictGet db.sessions u with _ | uid
    · simp [handle, view_bookmarks, hs] at h
      subst h
      exact Or.inr (Or.inl ⟨rfl, rfl, u, rfl, Or.inl hs⟩)
    · by_cases hz : uid = 0
      · subst hz
        simp [handle, view_bookmarks, hs] at h
        subst h
        exact Or.inr (Or.inl ⟨rfl, rfl, u, rfl, Or.inr hs⟩)
      · have hz' : (uid == 0) = false := by simpa using hz
        simp [handle, view_bookmarks, hs, hz'] at h
  | removeBookmark u pid =>
    rcases hs : dictGet db.sessions u with _ | uid
    · simp [handle, remove_bookmark, hs] at h
      subst h
      exact Or.inr (Or.inl ⟨rfl, rfl, u, rfl, Or.inl hs⟩)
    · by_cases hz : uid = 0
      · subst hz
        simp [handle, remove_bookmark, hs] at h
        subst h
        exact Or.inr (Or.inl ⟨rfl, rfl, u, rfl, Or.inr hs⟩)
      · have hz' : (uid == 0) = false := by simpa using hz
        rcases hf : db.bookmarks.find?
            (fun b => b.user_id == uid && b.product_id == pid) with _ | it <;>
          simp [handle, remove_bookmark, hs, hz', hf] at h

/-- GET /cart/{username} never changes the state. -/
theorem view_cart_fst (db : DB) (u : String) : (view_cart db u).1 = db := by
  rcases hs : dictGet db.sessions u with _ | v
  · simp [view_cart, hs]
  · by_cases hz : v = 0
    · subst hz; simp [view_cart, hs]
    · have hz' : (v == 0) = false := by simpa using hz
      simp [view_cart, hs, hz']

/-- GET /bookmarks/{username} never changes the state. -/
theorem view_bookmarks_fst (db : DB) (u : String) :
    (view_bookmarks db u).1 = db := by
  rcases hs : dictGet db.sessions u with _ | v
  · simp [view_bookmarks, hs]
  · by_cases hz : v = 0
    · subst hz; simp [view_bookmarks, hs]
    · have hz' : (v == 0) = false := by simpa using hz
      simp [view_bookmarks, hs, hz']

/-- One-step simulation for the cart: each request transforms user
`uid`'s cart product-id list exactly as the spec-level `cartSpecStep`
says. -/
theorem handle_cartPids (db : DB) (r : Request) (uid : Nat) :
    cartPids (handle db r).1 uid = cartSpecStep uid db r (cartPids db uid) := by
  cases r with
  | register u p =>
    by_cases hf : (db.users.find? (fun v => v.username == u)).isSome <;>
      simp [handle, register, hf, cartPids, cartSpecStep]
  | login u p =>
    rcases hf : db.users.find?
        (fun v => v.username == u && v.password == p) with _ | w <;>
      simp [handle, login, hf, cartPids, cartSpecStep]
  | logout u => simp [handle, logout, cartPids, cartSpecStep]
  | createProduct p => simp [handle, create_product, cartPids, cartSpecStep]
  | readProducts => simp [handle, read_products, cartPids, cartSpecStep]
  | deleteProduct pid =>
    rcases hg : getProduct db pid with _ | pp <;>
      simp [handle, delete_product, hg, cartPids, cartSpecStep]
  | updateProduct pid pd =>
    rcases hg : getProduct db pid with _ | pp <;>
      simp [handle, update_product, hg, cartPids, cartSpecStep]
  | viewCart u =>
    simp [handle, view_cart_fst, cartPids, cartSpecStep]
  | viewBookmarks u =>
    simp [handle, view_bookmarks_fst, cartPids, cartSpecStep]
  | addBookmark u pid =>
    rcases hs : dictGet db.sessions u with _ | v
    · simp [handle, add_bookmark, hs, cartPids, cartSpecStep]
    · by_cases hz : v = 0
      · subst hz; simp [handle, add_bookmark, hs, cartPids, cartSpecStep]
      · have hz' : (v == 0) = false := by simpa using hz
        simp [handle, add_bookmark, hs, hz', cartPids, cartSpecStep]
  | removeBookmark u pid =>
    rcases hs : dictGet db.sessions u with _ | v
    · simp [handle, remove_bookmark, hs, cartPids, cartSpecStep]
    · by_cases hz : v = 0
      · subst hz; simp [handle, remove_bookmark, hs, cartPids, cartSpecStep]
      · have hz' : (v == 0) = false := by simpa using hz
        rcases hf : db.bookmarks.find?
            (fun b => b.user_id == v && b.product_id == pid) with _ | it <;>
          simp [handle, remove_bookmark, hs, hz', hf, cartPids, cartSpecStep]
  | addToCart u pid =>
    rcases hs : dictGet db.sessions u with _ | v
    · have hcond : ¬(dictGet db.sessions u = some uid ∧ uid ≠ 0) := by
        rintro ⟨h1, _⟩; rw [hs] at h1; exact Option.noConfusion h1
      simp [handle, add_to_cart, hs, cartPids, cartSpecStep, hcond]
    · by_cases hz : v = 0
      · subst hz
        simp [handle, add_to_cart, hs, cartPids, cartSpecStep]
        rw [if_neg (by rintro ⟨h1, h2⟩; exact h2 h1.symm)]
      · have hz' : (v == 0) = false := by simpa using hz
        by_cases hvu : v = uid
        · subst hvu
          have hcond : dictGet db.sessions u = some v ∧ v ≠ 0 := ⟨hs, hz⟩
          simp [handle, add_to_cart, hs, hz', cartPids, cartSpecStep, hcond,
                List.filter_append]
        · have hvu' : (v == uid) = false := by simpa using hvu
          simp [handle, add_to_cart, hs, hz', cartPids, cartSpecStep,
                List.filter_append, hvu']
          rw [if_neg (by rintro ⟨h1, _⟩; exact hvu h1)]
  | removeFromCart u pid =>
    rcases hs : dictGet db.sessions u with _ | v
    · have hcond : ¬(dictGet db.sessions u = some uid ∧ uid ≠ 0) := by
        rintro ⟨h1, _⟩; rw [hs] at h1; exact Option.noConfusion h1
      simp [handle, remove_from_cart, hs, cartPids, cartSpecStep, hcond]
    · by_cases hz : v = 0
      · subst hz
        simp [handle, remove_from_cart, hs, cartPids, cartSpecStep]
        rw [if_neg (by rintro ⟨h1, h2⟩; exact h2 h1.symm)]
      · have hz' : (v == 0) = false := by simpa using hz
        rcases hf : db.cart_items.find?
            (fun c => c.user_id == v && c.product_id == pid) with _ | it
        · by_cases hvu : v = uid
          · subst hvu
            have hcond : dictGet db.sessions u = some v ∧ v ≠ 0 := ⟨hs, hz⟩
            have hnm :=
              not_mem_filter_map_of_find?_none
                (fun c : CartItem => c.user_id == v)
                (fun c => c.product_id) pid db.cart_items hf
            simp [handle, remove_from_cart, hs, hz', hf, cartPids,
                  cartSpecStep, hcond, List.erase_of_not_mem hnm]
          · simp [handle, remove_from_cart, hs, hz', hf, cartPids,
                  cartSpecStep]
            rw [if_neg (by rintro ⟨h1, _⟩; exact hvu h1)]
        · by_cases hvu : v = uid
          · subst hvu
            have hcond : dictGet db.sessions u = some v ∧ v ≠ 0 := ⟨hs, hz⟩
            have hkey :=
              filter_map_eraseP (fun c : CartItem => c.user_id == v)
                (fun c => c.product_id) pid db.cart_items
            simp [handle, remove_from_cart, hs, hz', hf, cartPids,
                  cartSpecStep, hcond] at hkey ⊢
            exact hkey
          · have hd : ∀ c : CartItem,
                (c.user_id == v && c.product_id == pid) = true →
                (c.user_id == uid) = false := by
              intro c hc
              have h1 : c.user_id = v := by
                have := (Bool.and_eq_true _ _).mp hc
                simpa using this.1
              simp [h1, hvu]
            have hkey :=
              filter_eraseP_of_disjoint
                (fun c : CartItem => c.user_id == v && c.product_id == pid)
                (fun c : CartItem => c.user_id == uid) db.cart_items hd
            simp [handle, remove_from_cart, hs, hz', hf, cartPids,
                  cartSpecStep, hkey]
            rw [if_neg (by rintro ⟨h1, _⟩; exact hvu h1)]

/-- One-step simulation for bookmarks: the counterpart of
`handle_cartPids`. -/
theorem handle_bookmarkPids (db : DB) (r : Request) (uid : Nat) :
    bookmarkPids (handle db r).1 uid
      = bookmarkSpecStep uid db r (bookmarkPids db uid) := by
  cases r with
  | register u p =>
    by_cases hf : (db.users.find? (fun v => v.username == u)).isSome <;>
      simp [handle, register, hf, bookmarkPids, bookmarkSpecStep]
  | login u p =>
    rcases hf : db.users.find?
        (fun v => v.username == u && v.password == p) with _ | w <;>
      simp [handle, login, hf, bookmarkPids, bookmarkSpecStep]
  | logout u => simp [handle, logout, bookmarkPids, bookmarkSpecStep]
  | createProduct p =>
    simp [handle, create_product, bookmarkPids, bookmarkSpecStep]
  | readProducts => simp [handle, read_products, bookmarkPids, bookmarkSpecStep]
  | deleteProduct pid =>
    rcases hg : getProduct db pid with _ | pp <;>
      simp [handle, delete_product, hg, bookmarkPids, bookmarkSpecStep]
  | updateProduct pid pd =>
    rcases hg : getProduct db pid with _ | pp <;>
      simp [handle, update_product, hg, bookmarkPids, bookmarkSpecStep]
  | viewCart u =>
    simp [handle, view_cart_fst, bookmarkPids, bookmarkSpecStep]
  | viewBookmarks u =>
    simp [handle, view_bookmarks_fst, bookmarkPids, bookmarkSpecStep]
  | addToCart u pid =>
    rcases hs : dictGet db.sessions u with _ | v
    · simp [handle, add_to_cart, hs, bookmarkPids, bookmarkSpecStep]
    · by_cases hz : v = 0
      · subst hz; simp [handle, add_to_cart, hs, bookmarkPids, bookmarkSpecStep]
      · have hz' : (v == 0) = false := by simpa using hz
        simp [handle, add_to_cart, hs, hz', bookmarkPids, bookmarkSpecStep]
  | removeFromCart u pid =>
    rcases hs : dictGet db.sessions u with _ | v
    · simp [handle, remove_from_cart, hs, bookmarkPids, bookmarkSpecStep]
    · by_cases hz : v = 0
      · subst hz
        simp [handle, remove_from_cart, hs, bookmarkPids, bookmarkSpecStep]
      · have hz' : (v == 0) = false := by simpa using hz
        rcases hf : db.cart_items.find?
            (fun c => c.user_id == v && c.product_id == pid) with _ | it <;>
          simp [handle, remove_from_cart, hs, hz', hf, bookmarkPids,
                bookmarkSpecStep]
  | addBookmark u pid =>
    rcases hs : dictGet db.sessions u with _ | v
    · have hcond : ¬(dictGet db.sessions u = some uid ∧ uid ≠ 0) := by
        rintro ⟨h1, _⟩; rw [hs] at h1; exact Option.noConfusion h1
      simp [handle, add_bookmark, hs, bookmarkPids, bookmarkSpecStep, hcond]
    · by_cases hz : v = 0
      · subst hz
        simp [handle, add_bookmark, hs, bookmarkPids, bookmarkSpecStep]
        rw [if_neg (by rintro ⟨h1, h2⟩; exact h2 h1.symm)]
      · have hz' : (v == 0) = false := by simpa using hz
        by_cases hvu : v = uid
        · subst hvu
          have hcond : dictGet db.sessions u = some v ∧ v ≠ 0 := ⟨hs, hz⟩
          simp [handle, add_bookmark, hs, hz', bookmarkPids, bookmarkSpecStep,
                hcond, List.filter_append]
        · have hvu' : (v == uid) = false := by simpa using hvu
          simp [handle, add_bookmark, hs, hz', bookmarkPids, bookmarkSpecStep,
                List.filter_append, hvu']
          rw [if_neg (by rintro ⟨h1, _⟩; exact hvu h1)]
  | removeBookmark u pid =>
    rcases hs : dictGet db.sessions u with _ | v
    · have hcond : ¬(dictGet db.sessions u = some uid ∧ uid ≠ 0) := by
        rintro ⟨h1, _⟩; rw [hs] at h1; exact Option.noConfusion h1
      simp [handle, remove_bookmark, hs, bookmarkPids, bookmarkSpecStep, hcond]
    · by_cases hz : v = 0
      · subst hz
        simp [handle, remove_bookmark, hs, bookmarkPids, bookmarkSpecStep]
        rw [if_neg (by rintro ⟨h1, h2⟩; exact h2 h1.symm)]
      · have hz' : (v == 0) = false := by simpa using hz
        rcases hf : db.bookmarks.find?
            (fun b => b.user_id == v && b.product_id == pid) with _ | it
        · by_cases hvu : v = uid
          · subst hvu
            have hcond : dictGet db.sessions u = some v ∧ v ≠ 0 := ⟨hs, hz⟩
            have hnm :=
              not_mem_filter_map_of_find?_none
                (fun b : Bookmark => b.user_id == v)
                (fun b => b.product_id) pid db.bookmarks hf
            simp [handle, remove_bookmark, hs, hz', hf, bookmarkPids,
                  bookmarkSpecStep, hcond, List.erase_of_not_mem hnm]
          · simp [handle, remove_bookmark, hs, hz', hf, bookmarkPids,
                  bookmarkSpecStep]
            rw [if_neg (by rintro ⟨h1, _⟩; exact hvu h1)]
        · by_cases hvu : v = uid
          · subst hvu
            have hcond : dictGet db.sessions u = some v ∧ v ≠ 0 := ⟨hs, hz⟩
            have hkey :=
              filter_map_eraseP (fun b : Bookmark => b.user_id == v)
                (fun b => b.product_id) pid db.bookmarks
            simp [handle, remove_bookmark, hs, hz', hf, bookmarkPids,
                  bookmarkSpecStep, hcond] at hkey ⊢
            exact hkey
          · have hd : ∀ b : Bookmark,
                (b.user_id == v && b.product_id == pid) = true →
                (b.user_id == uid) = false := by
              intro b hb
              have h1 : b.user_id = v := by
                have := (Bool.and_eq_true _ _).mp hb
                simpa using this.1
              simp [h1, hvu]
            have hkey :=
              filter_eraseP_of_disjoint
                (fun b : Bookmark => b.user_id == v && b.product_id == pid)
                (fun b : Bookmark => b.user_id == uid) db.bookmarks hd
            simp [handle, remove_bookmark, hs, hz', hf, bookmarkPids,
                  bookmarkSpecStep, hkey]
            rw [if_neg (by rintro ⟨h1, _⟩; exact hvu h1)]

/-- Trace-level simulation for the cart: running any request list maps
the cart product-id list through the spec-level fold. -/
theorem run_cartPids (uid : Nat) (t : List Request) (db : DB) :
    cartPids (run db t) uid = cartSpecRun uid db t (cartPids db uid) := by
  induction t generalizing db with
  | nil => rfl
  | cons r rs ih =>
    show cartPids (run (handle db r).1 rs) uid = _
    rw [ih, handle_cartPids]
    rfl

/-- Trace-level simulation for bookmarks. -/
theorem run_bookmarkPids (uid : Nat) (t : List Request) (db : DB) :
    bookmarkPids (run db t) uid = bookmarkSpecRun uid db t (bookmarkPids db uid) := by
  induction t generalizing db with
  | nil => rfl
  | cons r rs ih =>
    show bookmarkPids (run (handle db r).1 rs) uid = _
    rw [ih, handle_bookmarkPids]
    rfl

/-- Witness for `handler_errors_classified` at the failed login. -/
theorem handler_errors_classified_witness :
    (handle initDB (.login "a" "b")).2 = .error .invalidCredentials ∧
    ((Err.invalidCredentials = .productNotFound ∧
        Err.invalidCredentials.status = 404 ∧
        ∃ pid, ((.login "a" "b" : Request) = .deleteProduct pid ∨
            ∃ pd, (.login "a" "b" : Request) = .updateProduct pid pd) ∧
          getProduct initDB pid = none) ∨
      (Err.invalidCredentials = .notAuthenticated ∧
        Err.invalidCredentials.status = 403 ∧
        ∃ u, sessionUser (.login "a" "b") = some u ∧
          (dictGet initDB.sessions u = none ∨
            dictGet initDB.sessions u = some 0)) ∨
      (Err.invalidCredentials = .usernameTaken ∧
        Err.invalidCredentials.status = 400 ∧
        ∃ u p, (.login "a" "b" : Request) = .register u p ∧
          (initDB.users.find? (fun v => v.username == u)).isSome) ∨
      (Err.invalidCredentials = .invalidCredentials ∧
        Err.invalidCredentials.status = 400 ∧
        ∃ u p, (.login "a" "b" : Request) = .login u p ∧
          initDB.users.find?
            (fun v => v.username == u && v.password == p) = none)) :=
  ⟨rfl, handler_errors_classified initDB (.login "a" "b")
          .invalidCredentials rfl⟩

/-- Counterexample to claim C1 as stated: starting from the empty
state, create a product, register and log in "alice", add the product
to her cart, then delete the product from the catalog.  "alice" is
still authenticated and never removed the item from her cart, so the
claim says GET /cart/alice returns exactly the added product; the code
instead resolves the orphaned row's `item.product` relationship to
nothing, so the view holds no product at all. -/
theorem cart_view_loses_deleted_product :
    dictGet (run initDB
      [.createProduct ⟨"x", 5, "d", 3⟩, .register "alice" "pw",
       .login "alice" "pw", .addToCart "alice" 1,
       .deleteProduct 1]).sessions "alice" = some 1 ∧
    cartSpecRun 1 initDB
      [.createProduct ⟨"x", 5, "d", 3⟩, .register "alice" "pw",
       .login "alice" "pw", .addToCart "alice" 1,
       .deleteProduct 1] [] = [1] ∧
    getProduct (run initDB
      [.createProduct ⟨"x", 5, "d", 3⟩, .register "alice" "pw",
       .login "alice" "pw", .addToCart "alice" 1,
       .deleteProduct 1]) 1 = none ∧
    (view_cart (run initDB
      [.createProduct ⟨"x", 5, "d", 3⟩, .register "alice" "pw",
       .login "alice" "pw", .addToCart "alice" 1,
       .deleteProduct 1]) "alice").2 = .ok (.productViews [none]) ∧
    Resp.productViews [none]
      ≠ Resp.productViews [some ⟨1, "x", 5, "d", 3⟩] :=
  ⟨rfl, rfl, rfl, rfl, by decide⟩

/-- Claim C1 amended: for every request trace from the fresh state and
every user authenticated at its end, the cart and bookmark views list,
in insertion order, one entry per product id that user added via the
corresponding add endpoint and did not remove, each entry resolved
against the current products table — so the entry is the added product
exactly when that product still exists, and empty when it was deleted. -/
theorem cart_bookmark_views_follow_history (t : List Request) (u : String)
    (uid : Nat) (h : dictGet (run initDB t).sessions u = some uid)
    (h0 : uid ≠ 0) :
    (view_cart (run initDB t) u).2
      = .ok (.productViews
          ((cartSpecRun uid initDB t []).map (getProduct (run initDB t)))) ∧
    (view_bookmarks (run initDB t) u).2
      = .ok (.productViews
          ((bookmarkSpecRun uid initDB t []).map
            (getProduct (run initDB t)))) := by
  have h0' : (uid == 0) = false := by simpa using h0
  have hc := run_cartPids uid t initDB
  have hb := run_bookmarkPids uid t initDB
  have hcinit : cartPids initDB uid = [] := rfl
  have hbinit : bookmarkPids initDB uid = [] := rfl
  rw [hcinit] at hc
  rw [hbinit] at hb
  constructor
  · simp only [view_cart, h, h0']
    rw [← hc]
    simp [cartPids, List.map_map, Function.comp]
  · simp only [view_bookmarks, h, h0']
    rw [← hb]
    simp [bookmarkPids, List.map_map, Function.comp]

/-- Witness for `cart_bookmark_views_follow_history` on the trace that
creates a product, registers and logs in "alice", and puts the product
in her cart. -/
theorem cart_bookmark_views_follow_history_witness :
    dictGet (run initDB
      [.createProduct ⟨"x", 5, "d", 3⟩, .register "alice" "pw",
       .login "alice" "pw", .addToCart "alice" 1]).sessions "alice"
      = some 1 ∧ (1 : Nat) ≠ 0 ∧
    ((view_cart (run initDB
        [.createProduct ⟨"x", 5, "d", 3⟩, .register "alice" "pw",
         .login "alice" "pw", .addToCart "alice" 1]) "alice").2
      = .ok (.productViews
          ((cartSpecRun 1 initDB
              [.createProduct ⟨"x", 5, "d", 3⟩, .register "alice" "pw",
               .login "alice" "pw", .addToCart "alice" 1] []).map
            (getProduct (run initDB
              [.createProduct ⟨"x", 5, "d", 3⟩, .register "alice" "pw",
               .login "alice" "pw", .addToCart "alice" 1])))) ∧
     (view_bookmarks (run initDB
        [.createProduct ⟨"x", 5, "d", 3⟩, .register "alice" "pw",
         .login "alice" "pw", .addToCart "alice" 1]) "alice").2
      = .ok (.productViews
          ((bookmarkSpecRun 1 initDB
              [.createProduct ⟨"x", 5, "d", 3⟩, .register "alice" "pw",
               .login "alice" "pw", .addToCart "alice" 1] []).map
            (getProduct (run initDB
              [.createProduct ⟨"x", 5, "d", 3⟩, .register "alice" "pw",
               .login "alice" "pw", .addToCart "alice" 1]))))) :=
  ⟨rfl, by decide,
   cart_bookmark_views_follow_history
     [.createProduct ⟨"x", 5, "d", 3⟩, .register "alice" "pw",
      .login "alice" "pw", .addToCart "alice" 1] "alice" 1 rfl (by decide)⟩

end ShopDB
